import Mathlib

/-!
# SmartFiltering: verification of the listing filter/score/suggest routine

Shallow embedding of the three search tools in
`src/my_agent/subagents/{transport,accommodation,item}_agent.py` and the
mock database in `src/my_agent/data/mock_db.py`.

Python `float` values (prices, ratings, scores) are modelled as rationals
`ℚ`; Python strings as Lean `String`; Python `Optional[...]` parameters as
`Option ...`.  Python truthiness of the guards (`if location:` skips the
filter for `None` and for the empty string; `if year:` skips it for `None`
and for `0`) is reproduced exactly.
-/

namespace SmartFiltering

/-- Base class for all listings (`mock_db.Listing`). -/
structure Listing where
  listingId : String
  ownerId : String
  title : String
  description : String
  basePrice : ℚ
  location : String
  averageRating : ℚ
deriving DecidableEq, Repr

/-- A vehicle available for rent (`mock_db.Transport`). -/
structure Transport extends Listing where
  vehicleType : String
  make : String
  model : String
  year : Int
deriving DecidableEq, Repr

/-- A place to stay (`mock_db.Accommodation`). -/
structure Accommodation extends Listing where
  propertyType : String
  numGuests : Int
deriving DecidableEq, Repr

/-- A general item available for rent (`mock_db.Item`). -/
structure Item extends Listing where
  itemCategory : String
deriving DecidableEq, Repr

/-- The scoring heuristic `averageRating * 2.0 - basePrice / 100.0`
used identically in all three agents. -/
def score (l : Listing) : ℚ :=
  l.averageRating * 2 - l.basePrice / 100

/-- `beginsWith n h` is true when the character list `n` is an initial
segment of `h`. -/
def beginsWith : List Char → List Char → Bool
  | [], _ => true
  | _ :: _, [] => false
  | a :: as, b :: bs => a == b && beginsWith as bs

/-- `containsSeq n h` is true when the character list `n` occurs
contiguously inside `h` (Python's `n in h` on strings). -/
def containsSeq : List Char → List Char → Bool
  | needle, [] => needle.isEmpty
  | needle, c :: rest => beginsWith needle (c :: rest) || containsSeq needle rest

/-- The characters of `s`, lower-cased (Python `s.lower()`). -/
def lowerList (s : String) : List Char :=
  s.toList.map Char.toLower

/-- Python `needle.lower() in hay.lower()`: case-insensitive substring
containment, the predicate used by every text criterion. -/
def substrCI (needle hay : String) : Bool :=
  containsSeq (lowerList needle) (lowerList hay)

/-- `max(l.averageRating for l in scope)`: Python `max` over a non-empty
generator, modelled as a fold; the `[]` case is junk (the code only
evaluates the aggregate on non-empty scopes). -/
def maxRating : List Listing → ℚ
  | [] => 0
  | h :: t => t.foldl (fun a l => max a l.averageRating) h.averageRating

/-- `min(l.basePrice for l in scope)`: Python `min` over a non-empty
generator, modelled as a fold; the `[]` case is junk. -/
def minPrice : List Listing → ℚ
  | [] => 0
  | h :: t => t.foldl (fun a l => min a l.basePrice) h.basePrice

/-- The reason-tag decision shared by the best-match branch
(default `"Best Match"`) and the suggestion branch (default `"Related"`):
`"High Rating"` if rating ≥ 4.5 and within 1% of the scope's maximum
rating, else `"Cheap"` if price is within 1% of the scope's minimum
price, else the default. -/
def reasonTag (scope : List Listing) (l : Listing) (dflt : String) : String :=
  if 4.5 ≤ l.averageRating ∧ 0.99 * maxRating scope ≤ l.averageRating then
    "High Rating"
  else if l.basePrice ≤ minPrice scope * 1.01 then
    "Cheap"
  else
    dflt

/-! ## Filter stages

Each Python statement `if crit: candidates = [l for l in candidates if P]`
becomes one stage.  Python truthiness: a string criterion is skipped when
`None` or `""`; an integer criterion (`year`, `num_guests`) is skipped
when `None` or `0`; `max_price` is guarded by `is not None` only. -/

/-- `if crit: candidates = [l for l in candidates if crit.lower() in get(l).lower()]`. -/
def filterStr (o : Option String) (get : α → String) (ls : List α) : List α :=
  match o with
  | none => ls
  | some s => if s = "" then ls else ls.filter fun l => substrCI s (get l)

/-- `if max_price is not None: candidates = [l for l in candidates if get(l) <= max_price]`. -/
def filterLe (o : Option ℚ) (get : α → ℚ) (ls : List α) : List α :=
  match o with
  | none => ls
  | some p => ls.filter fun l => decide (get l ≤ p)

/-- `if year: candidates = [l for l in candidates if get(l) == year]`. -/
def filterEqInt (o : Option Int) (get : α → Int) (ls : List α) : List α :=
  match o with
  | none => ls
  | some y => if y = 0 then ls else ls.filter fun l => get l == y

/-- `if num_guests: candidates = [l for l in candidates if get(l) >= num_guests]`. -/
def filterGeInt (o : Option Int) (get : α → Int) (ls : List α) : List α :=
  match o with
  | none => ls
  | some g => if g = 0 then ls else ls.filter fun l => decide (g ≤ get l)

/-- Optional parameters of `search_transport_listings`. -/
structure TransportCriteria where
  location : Option String
  max_price : Option ℚ
  vehicleType : Option String
  make : Option String
  model : Option String
  year : Option Int
deriving DecidableEq, Repr

/-- Optional parameters of `search_accommodation_listings`. -/
structure AccommodationCriteria where
  location : Option String
  max_price : Option ℚ
  propertyType : Option String
  numGuests : Option Int
deriving DecidableEq, Repr

/-- Optional parameters of `search_item_listings`. -/
structure ItemCriteria where
  location : Option String
  max_price : Option ℚ
  itemCategory : Option String
deriving DecidableEq, Repr

/-- The filter cascade of `search_transport_listings`, in source order. -/
def filterTransport (db : List Transport) (c : TransportCriteria) : List Transport :=
  let cs := db
  let cs := filterStr c.location (fun l => l.location) cs
  let cs := filterLe c.max_price (fun l => l.basePrice) cs
  let cs := filterStr c.vehicleType (fun l => l.vehicleType) cs
  let cs := filterStr c.make (fun l => l.make) cs
  let cs := filterStr c.model (fun l => l.model) cs
  let cs := filterEqInt c.year (fun l => l.year) cs
  cs

/-- The filter cascade of `search_accommodation_listings`, in source order. -/
def filterAccommodation (db : List Accommodation) (c : AccommodationCriteria) :
    List Accommodation :=
  let cs := db
  let cs := filterStr c.location (fun l => l.location) cs
  let cs := filterLe c.max_price (fun l => l.basePrice) cs
  let cs := filterStr c.propertyType (fun l => l.propertyType) cs
  let cs := filterGeInt c.numGuests (fun l => l.numGuests) cs
  cs

/-- The filter cascade of `search_item_listings`, in source order. -/
def filterItem (db : List Item) (c : ItemCriteria) : List Item :=
  let cs := db
  let cs := filterStr c.location (fun l => l.location) cs
  let cs := filterLe c.max_price (fun l => l.basePrice) cs
  let cs := filterStr c.itemCategory (fun l => l.itemCategory) cs
  cs

/-! ## Best-match selection and fallback suggestions -/

/-- The body of the selection loop: starting from current best `b`,
process the remaining candidates; a listing replaces the current best
only when its score is strictly greater (`score > best_score`). -/
def selectGo (sc : α → ℚ) (b : α) : List α → α
  | [] => b
  | l :: rest => selectGo sc (if sc b < sc l then l else b) rest

/-- The whole selection loop: `best` starts as `None` with
`best_score = -inf`, so the first candidate always becomes the best and
the loop continues with strict-improvement updates. -/
def selectBest (sc : α → ℚ) : List α → Option α
  | [] => none
  | h :: t => some (selectGo sc h t)

/-- The Python sort key `(-(rating*2.0 - price/100.0), price)`. -/
def suggKey (l : Listing) : ℚ × ℚ :=
  (-(score l), l.basePrice)

/-- Lexicographic comparison of sort keys, as Python tuple `<=`. -/
def keyLe (p q : ℚ × ℚ) : Bool :=
  decide (p.1 < q.1) || (decide (p.1 = q.1) && decide (p.2 ≤ q.2))

/-- The comparison used to model `sorted(all_listings, key=...)`
(a stable sort by ascending `suggKey`). -/
def suggLe (a b : Listing) : Bool :=
  keyLe (suggKey a) (suggKey b)

/-- The result-record shape `{listingId, title, location, basePrice, reason}`
shared by best matches and suggestions. -/
structure ResultRec where
  listingId : String
  title : String
  location : String
  basePrice : ℚ
  reason : String
deriving DecidableEq, Repr

/-- Build the result record for listing `l` with reason tag `reason`. -/
def mkRec (l : Listing) (reason : String) : ResultRec :=
  ⟨l.listingId, l.title, l.location, l.basePrice, reason⟩

/-- A search either returns one best-match record, or an error message
plus a list of suggestion records. -/
inductive SearchResult where
  | ok (r : ResultRec)
  | err (msg : String) (suggestions : List ResultRec)
deriving DecidableEq, Repr

/-- `search_transport_listings`, with the listing collection made an
explicit parameter (the Python body fetches it by calling
`get_transport_listings()` for both the candidate pool and the fallback
`all_listings`).  The `none` arm of the final match is unreachable
(`selectBest` never returns `none` on a non-empty list, cf. the Python
code which would raise on `best = None`). -/
def searchTransportListings (db : List Transport) (c : TransportCriteria) :
    SearchResult :=
  let candidates := filterTransport db c
  if candidates.isEmpty then
    let all_listings := db
    let suggestions_sorted :=
      all_listings.mergeSort fun a b => suggLe a.toListing b.toListing
    let suggestions := suggestions_sorted.take 3
    let suggestion_data :=
      if suggestions.isEmpty then []
      else suggestions.map fun s =>
        mkRec s.toListing
          (reasonTag (all_listings.map Transport.toListing) s.toListing "Related")
    SearchResult.err "No matching transport listings found." suggestion_data
  else
    match selectBest (fun l => score l.toListing) candidates with
    | some best =>
        SearchResult.ok (mkRec best.toListing
          (reasonTag (candidates.map Transport.toListing) best.toListing "Best Match"))
    | none => SearchResult.err "unreachable: best is None" []

/-- `search_accommodation_listings`, collection as explicit parameter. -/
def searchAccommodationListings (db : List Accommodation) (c : AccommodationCriteria) :
    SearchResult :=
  let candidates := filterAccommodation db c
  if candidates.isEmpty then
    let all_listings := db
    let suggestions_sorted :=
      all_listings.mergeSort fun a b => suggLe a.toListing b.toListing
    let suggestions := suggestions_sorted.take 3
    let suggestion_data :=
      if suggestions.isEmpty then []
      else suggestions.map fun s =>
        mkRec s.toListing
          (reasonTag (all_listings.map Accommodation.toListing) s.toListing "Related")
    SearchResult.err "No matching accommodation listings found." suggestion_data
  else
    match selectBest (fun l => score l.toListing) candidates with
    | some best =>
        SearchResult.ok (mkRec best.toListing
          (reasonTag (candidates.map Accommodation.toListing) best.toListing "Best Match"))
    | none => SearchResult.err "unreachable: best is None" []

/-- `search_item_listings`, collection as explicit parameter. -/
def searchItemListings (db : List Item) (c : ItemCriteria) : SearchResult :=
  let candidates := filterItem db c
  if candidates.isEmpty then
    let all_listings := db
    let suggestions_sorted :=
      all_listings.mergeSort fun a b => suggLe a.toListing b.toListing
    let suggestions := suggestions_sorted.take 3
    let suggestion_data :=
      if suggestions.isEmpty then []
      else suggestions.map fun s =>
        mkRec s.toListing
          (reasonTag (all_listings.map Item.toListing) s.toListing "Related")
    SearchResult.err "No matching item listings found." suggestion_data
  else
    match selectBest (fun l => score l.toListing) candidates with
    | some best =>
        SearchResult.ok (mkRec best.toListing
          (reasonTag (candidates.map Item.toListing) best.toListing "Best Match"))
    | none => SearchResult.err "unreachable: best is None" []

/-! ## Mock database (`mock_db.py`) -/

/-- An entry of the heterogeneous `mock_listings` list: each element is a
`Transport`, an `Accommodation` or an `Item`. -/
inductive MockEntry where
  | transport (t : Transport)
  | accommodation (a : Accommodation)
  | item (i : Item)
deriving DecidableEq, Repr

/-- Mock transport listing `T001` (Toyota Camry 2018). -/
def mockCamry : Transport :=
  ⟨⟨"T001", "U123", "Toyota Camry 2018", "A comfortable midsize sedan.",
    80, "Kuala Lumpur", 4.7⟩, "car", "Toyota", "Camry", 2018⟩

/-- Mock transport listing `T002` (Honda City 2019). -/
def mockCity : Transport :=
  ⟨⟨"T002", "U124", "Honda City 2019", "Compact sedan with great fuel economy.",
    70, "Kuala Lumpur", 4.5⟩, "car", "Honda", "City", 2019⟩

/-- Mock accommodation listing `A001`. -/
def mockApartment : Accommodation :=
  ⟨⟨"A001", "U456", "Cozy Apartment in KL",
    "A modern one-bedroom apartment close to downtown.",
    150, "Kuala Lumpur", 4.6⟩, "Apartment", 2⟩

/-- Mock accommodation listing `A002`. -/
def mockHome : Accommodation :=
  ⟨⟨"A002", "U457", "Family Home in Penang", "A spacious house suitable for families.",
    200, "Penang", 4.8⟩, "House", 6⟩

/-- Mock item listing `I001`. -/
def mockCamera : Item :=
  ⟨⟨"I001", "U789", "Canon DSLR Camera", "A professional DSLR camera for rent.",
    60, "Kuala Lumpur", 4.8⟩, "Electronics"⟩

/-- Mock item listing `I002`. -/
def mockDrill : Item :=
  ⟨⟨"I002", "U790", "Power Drill", "Heavy duty power drill for DIY projects.",
    20, "Kuala Lumpur", 4.3⟩, "Tools"⟩

/-- `mock_db.mock_listings`, entry by entry in source order. -/
def mock_listings : List MockEntry :=
  [ MockEntry.transport mockCamry,
    MockEntry.transport mockCity,
    MockEntry.accommodation mockApartment,
    MockEntry.accommodation mockHome,
    MockEntry.item mockCamera,
    MockEntry.item mockDrill ]

/-- `[l for l in mock_listings if isinstance(l, Transport)]`. -/
def get_transport_listings : List Transport :=
  mock_listings.filterMap fun e =>
    match e with
    | MockEntry.transport t => some t
    | _ => none

/-- `[l for l in mock_listings if isinstance(l, Accommodation)]`. -/
def get_accommodation_listings : List Accommodation :=
  mock_listings.filterMap fun e =>
    match e with
    | MockEntry.accommodation a => some a
    | _ => none

/-- `[l for l in mock_listings if isinstance(l, Item)]`. -/
def get_item_listings : List Item :=
  mock_listings.filterMap fun e =>
    match e with
    | MockEntry.item i => some i
    | _ => none

/-! ## The category-agnostic ranker of the specification

Spec §4.1 describes one generic `ListingRanker.rank` over base listings,
of which the three searches are instantiations when only the shared
criteria (`location`, `max_price`) are set. -/

/-- The generic ranker of the specification, restricted to the shared
criteria `location` and `max_price`, over plain base listings; the error
message is the only category-specific datum.  It repeats the shape of
the three search functions verbatim with `toListing = id`. -/
def rankListings (db : List Listing) (location : Option String)
    (max_price : Option ℚ) (msg : String) : SearchResult :=
  let candidates := filterLe max_price (fun l => l.basePrice)
    (filterStr location (fun l => l.location) db)
  if candidates.isEmpty then
    let suggestions := (db.mergeSort suggLe).take 3
    let suggestion_data :=
      if suggestions.isEmpty then []
      else suggestions.map fun s => mkRec s (reasonTag db s "Related")
    SearchResult.err msg suggestion_data
  else
    match selectBest score candidates with
    | some best =>
        SearchResult.ok (mkRec best (reasonTag candidates best "Best Match"))
    | none => SearchResult.err "unreachable: best is None" []

/-- Embed a base listing as a `Transport` with blank category fields. -/
def Listing.asTransport (b : Listing) : Transport :=
  ⟨b, "", "", "", 0⟩

/-- Embed a base listing as an `Accommodation` with blank category fields. -/
def Listing.asAccommodation (b : Listing) : Accommodation :=
  ⟨b, "", 0⟩

/-- Embed a base listing as an `Item` with a blank category field. -/
def Listing.asItem (b : Listing) : Item :=
  ⟨b, ""⟩

/-- Forget the error-message text of a result, keeping everything else. -/
def SearchResult.scrub : SearchResult → SearchResult
  | SearchResult.ok r => SearchResult.ok r
  | SearchResult.err _ s => SearchResult.err "" s

/-! ## Per-stage pass predicates and membership characterizations -/

/-- Whether a value passes an optional text criterion. -/
def passStr (o : Option String) (v : String) : Bool :=
  match o with
  | none => true
  | some s => if s = "" then true else substrCI s v

/-- Whether a value passes an optional price ceiling. -/
def passLe (o : Option ℚ) (v : ℚ) : Bool :=
  match o with
  | none => true
  | some p => decide (v ≤ p)

/-- Whether a value passes an optional exact-year criterion. -/
def passEqInt (o : Option Int) (v : Int) : Bool :=
  match o with
  | none => true
  | some y => if y = 0 then true else v == y

/-- Whether a value passes an optional minimum-capacity criterion. -/
def passGeInt (o : Option Int) (v : Int) : Bool :=
  match o with
  | none => true
  | some g => if g = 0 then true else decide (g ≤ v)

theorem mem_filterStr {o : Option String} {get : α → String} {ls : List α} {x : α} :
    x ∈ filterStr o get ls ↔ x ∈ ls ∧ passStr o (get x) = true := by
  cases o with
  | none => simp [filterStr, passStr]
  | some s =>
    by_cases hs : s = "" <;> simp [filterStr, passStr, hs, List.mem_filter]

theorem mem_filterLe {o : Option ℚ} {get : α → ℚ} {ls : List α} {x : α} :
    x ∈ filterLe o get ls ↔ x ∈ ls ∧ passLe o (get x) = true := by
  cases o with
  | none => simp [filterLe, passLe]
  | some p => simp [filterLe, passLe, List.mem_filter]

theorem mem_filterEqInt {o : Option Int} {get : α → Int} {ls : List α} {x : α} :
    x ∈ filterEqInt o get ls ↔ x ∈ ls ∧ passEqInt o (get x) = true := by
  cases o with
  | none => simp [filterEqInt, passEqInt]
  | some y =>
    by_cases hy : y = 0 <;> simp [filterEqInt, passEqInt, hy, List.mem_filter]

theorem mem_filterGeInt {o : Option Int} {get : α → Int} {ls : List α} {x : α} :
    x ∈ filterGeInt o get ls ↔ x ∈ ls ∧ passGeInt o (get x) = true := by
  cases o with
  | none => simp [filterGeInt, passGeInt]
  | some g =>
    by_cases hg : g = 0 <;> simp [filterGeInt, passGeInt, hg, List.mem_filter]

theorem mem_filterTransport {db : List Transport} {c : TransportCriteria} {l : Transport} :
    l ∈ filterTransport db c ↔
      l ∈ db ∧ passStr c.location l.location = true ∧
        passLe c.max_price l.basePrice = true ∧
        passStr c.vehicleType l.vehicleType = true ∧
        passStr c.make l.make = true ∧
        passStr c.model l.model = true ∧
        passEqInt c.year l.year = true := by
  show l ∈ filterEqInt _ _ _ ↔ _
  rw [mem_filterEqInt, mem_filterStr, mem_filterStr, mem_filterStr, mem_filterLe,
    mem_filterStr]
  tauto

theorem mem_filterAccommodation {db : List Accommodation} {c : AccommodationCriteria}
    {l : Accommodation} :
    l ∈ filterAccommodation db c ↔
      l ∈ db ∧ passStr c.location l.location = true ∧
        passLe c.max_price l.basePrice = true ∧
        passStr c.propertyType l.propertyType = true ∧
        passGeInt c.numGuests l.numGuests = true := by
  show l ∈ filterGeInt _ _ _ ↔ _
  rw [mem_filterGeInt, mem_filterStr, mem_filterLe, mem_filterStr]
  tauto

theorem mem_filterItem {db : List Item} {c : ItemCriteria} {l : Item} :
    l ∈ filterItem db c ↔
      l ∈ db ∧ passStr c.location l.location = true ∧
        passLe c.max_price l.basePrice = true ∧
        passStr c.itemCategory l.itemCategory = true := by
  show l ∈ filterStr _ _ _ ↔ _
  rw [mem_filterStr, mem_filterLe, mem_filterStr]
  tauto

/-! ## Properties of the selection loop -/

theorem selectGo_spec (sc : α → ℚ) (t : List α) (b : α) :
    ∃ pre post, b :: t = pre ++ selectGo sc b t :: post ∧
      (∀ x ∈ pre, sc x < sc (selectGo sc b t)) ∧
      (∀ x ∈ b :: t, sc x ≤ sc (selectGo sc b t)) := by
  induction t generalizing b with
  | nil =>
    exact ⟨[], [], rfl, by simp, by simp [selectGo]⟩
  | cons l t ih =>
    by_cases h : sc b < sc l
    · have hstep : selectGo sc b (l :: t) = selectGo sc l t := by
        simp [selectGo, h]
      obtain ⟨pre, post, he, hpre, hall⟩ := ih l
      refine ⟨b :: pre, post, ?_, ?_, ?_⟩
      · rw [hstep]
        simpa using congrArg (b :: ·) he
      · intro x hx
        rw [hstep]
        rcases List.mem_cons.mp hx with hx | hx
        · subst hx
          exact lt_of_lt_of_le h (hall l (List.mem_cons_self l t))
        · exact hpre x hx
      · intro x hx
        rw [hstep]
        rcases List.mem_cons.mp hx with hx | hx
        · subst hx
          exact le_of_lt (lt_of_lt_of_le h (hall l (List.mem_cons_self l t)))
        · exact hall x hx
    · have hstep : selectGo sc b (l :: t) = selectGo sc b t := by
        simp [selectGo, h]
      obtain ⟨pre, post, he, hpre, hall⟩ := ih b
      have hl : sc l ≤ sc b := le_of_not_lt h
      cases pre with
      | nil =>
        have hb : b = selectGo sc b t := by
          simpa using congrArg (fun xs => xs.headD b) he
        refine ⟨[], l :: t, ?_, by simp, ?_⟩
        · rw [hstep, ← hb]
          simp
        · intro x hx
          rw [hstep]
          rcases List.mem_cons.mp hx with rfl | hx
          · exact hall x (List.mem_cons_self x t)
          · rcases List.mem_cons.mp hx with rfl | hx
            · exact le_trans hl (hall b (List.mem_cons_self b t))
            · exact hall x (List.mem_cons_of_mem b hx)
      | cons p ps =>
        have hbp : b = p := by
          simpa using congrArg (fun xs => xs.headD b) he
        have ht : t = ps ++ selectGo sc b t :: post := by
          simpa using congrArg List.tail he
        have hbr : sc b < sc (selectGo sc b t) := by
          have h2 := hpre p (List.mem_cons_self p ps)
          rw [← hbp] at h2
          exact h2
        refine ⟨b :: l :: ps, post, ?_, ?_, ?_⟩
        · rw [hstep]
          conv_lhs => rw [ht]
          simp
        · intro x hx
          rw [hstep]
          rcases List.mem_cons.mp hx with rfl | hx
          · exact hbr
          · rcases List.mem_cons.mp hx with rfl | hx
            · exact lt_of_le_of_lt hl hbr
            · have hx' : x ∈ p :: ps := List.mem_cons_of_mem p hx
              exact hpre x hx'
        · intro x hx
          rw [hstep]
          rcases List.mem_cons.mp hx with rfl | hx
          · exact hall x (List.mem_cons_self x t)
          · rcases List.mem_cons.mp hx with rfl | hx
            · exact le_trans hl (hall b (List.mem_cons_self b t))
            · exact hall x (List.mem_cons_of_mem b hx)

theorem selectBest_spec (sc : α → ℚ) (ls : List α) (h : ls ≠ []) :
    ∃ b, selectBest sc ls = some b ∧ b ∈ ls ∧
      (∀ x ∈ ls, sc x ≤ sc b) ∧
      ∃ pre post, ls = pre ++ b :: post ∧ ∀ x ∈ pre, sc x < sc b := by
  cases ls with
  | nil => exact absurd rfl h
  | cons hd t =>
    obtain ⟨pre, post, he, hpre, hall⟩ := selectGo_spec sc t hd
    refine ⟨selectGo sc hd t, rfl, ?_, hall, pre, post, he, hpre⟩
    rw [he]
    exact List.mem_append_right pre (List.mem_cons_self _ _)

/-! ## Properties of the suggestion sort order -/

theorem keyLe_trans {p q r : ℚ × ℚ} (h1 : keyLe p q = true) (h2 : keyLe q r = true) :
    keyLe p r = true := by
  simp only [keyLe, Bool.or_eq_true, Bool.and_eq_true, decide_eq_true_eq] at h1 h2 ⊢
  rcases h1 with h1 | ⟨h1, h1'⟩ <;> rcases h2 with h2 | ⟨h2, h2'⟩
  · exact Or.inl (lt_trans h1 h2)
  · exact Or.inl (lt_of_lt_of_eq h1 h2)
  · exact Or.inl (lt_of_eq_of_lt h1 h2)
  · exact Or.inr ⟨h1.trans h2, le_trans h1' h2'⟩

theorem keyLe_total (p q : ℚ × ℚ) : (keyLe p q || keyLe q p) = true := by
  simp only [keyLe, Bool.or_eq_true, Bool.and_eq_true, decide_eq_true_eq]
  rcases lt_trichotomy p.1 q.1 with h | h | h
  · exact Or.inl (Or.inl h)
  · rcases le_total p.2 q.2 with h2 | h2
    · exact Or.inl (Or.inr ⟨h, h2⟩)
    · exact Or.inr (Or.inr ⟨h.symm, h2⟩)
  · exact Or.inr (Or.inl h)

/-- The descending-score, then ascending-price order that the suggestion
sort establishes. -/
def suggOrder (a b : Listing) : Prop :=
  score b < score a ∨ (score a = score b ∧ a.basePrice ≤ b.basePrice)

theorem suggLe_iff {a b : Listing} : suggLe a b = true ↔ suggOrder a b := by
  simp only [suggLe, keyLe, suggKey, suggOrder, Bool.or_eq_true, Bool.and_eq_true,
    decide_eq_true_eq, neg_lt_neg_iff, neg_inj]

/-- The `if suggestions: ... for s in suggestions` guard: mapping over the
(possibly empty) suggestion list is unchanged by the emptiness test. -/
theorem ite_isEmpty_map (l : List α) (f : α → β) :
    (if l.isEmpty then ([] : List β) else l.map f) = l.map f := by
  cases l <;> simp

/-! ## Branch shapes of the three search functions -/

theorem searchTransport_pos (db : List Transport) (c : TransportCriteria)
    (h : filterTransport db c ≠ []) :
    ∃ b, selectBest (fun l => score l.toListing) (filterTransport db c) = some b ∧
      searchTransportListings db c = SearchResult.ok (mkRec b.toListing
        (reasonTag ((filterTransport db c).map Transport.toListing) b.toListing
          "Best Match")) ∧
      b ∈ filterTransport db c ∧
      (∀ x ∈ filterTransport db c, score x.toListing ≤ score b.toListing) ∧
      ∃ pre post, filterTransport db c = pre ++ b :: post ∧
        ∀ x ∈ pre, score x.toListing < score b.toListing := by
  obtain ⟨b, hsel, hmem, hmax, pre, post, hdec, hpre⟩ :=
    selectBest_spec (fun l => score l.toListing) (filterTransport db c) h
  refine ⟨b, hsel, ?_, hmem, hmax, pre, post, hdec, hpre⟩
  simp only [searchTransportListings]
  rw [if_neg (by simp [List.isEmpty_iff, h]), hsel]

theorem searchTransport_emptyCase (db : List Transport) (c : TransportCriteria)
    (h : filterTransport db c = []) :
    searchTransportListings db c =
      SearchResult.err "No matching transport listings found."
        (((db.mergeSort fun a b => suggLe a.toListing b.toListing).take 3).map fun s =>
          mkRec s.toListing (reasonTag (db.map Transport.toListing) s.toListing
            "Related")) := by
  simp only [searchTransportListings]
  rw [if_pos (by simp [List.isEmpty_iff, h]), ite_isEmpty_map]

theorem searchAccommodation_pos (db : List Accommodation) (c : AccommodationCriteria)
    (h : filterAccommodation db c ≠ []) :
    ∃ b, selectBest (fun l => score l.toListing) (filterAccommodation db c) = some b ∧
      searchAccommodationListings db c = SearchResult.ok (mkRec b.toListing
        (reasonTag ((filterAccommodation db c).map Accommodation.toListing) b.toListing
          "Best Match")) ∧
      b ∈ filterAccommodation db c ∧
      (∀ x ∈ filterAccommodation db c, score x.toListing ≤ score b.toListing) ∧
      ∃ pre post, filterAccommodation db c = pre ++ b :: post ∧
        ∀ x ∈ pre, score x.toListing < score b.toListing := by
  obtain ⟨b, hsel, hmem, hmax, pre, post, hdec, hpre⟩ :=
    selectBest_spec (fun l => score l.toListing) (filterAccommodation db c) h
  refine ⟨b, hsel, ?_, hmem, hmax, pre, post, hdec, hpre⟩
  simp only [searchAccommodationListings]
  rw [if_neg (by simp [List.isEmpty_iff, h]), hsel]

theorem searchAccommodation_emptyCase (db : List Accommodation)
    (c : AccommodationCriteria) (h : filterAccommodation db c = []) :
    searchAccommodationListings db c =
      SearchResult.err "No matching accommodation listings found."
        (((db.mergeSort fun a b => suggLe a.toListing b.toListing).take 3).map fun s =>
          mkRec s.toListing (reasonTag (db.map Accommodation.toListing) s.toListing
            "Related")) := by
  simp only [searchAccommodationListings]
  rw [if_pos (by simp [List.isEmpty_iff, h]), ite_isEmpty_map]

theorem searchItem_pos (db : List Item) (c : ItemCriteria)
    (h : filterItem db c ≠ []) :
    ∃ b, selectBest (fun l => score l.toListing) (filterItem db c) = some b ∧
      searchItemListings db c = SearchResult.ok (mkRec b.toListing
        (reasonTag ((filterItem db c).map Item.toListing) b.toListing "Best Match")) ∧
      b ∈ filterItem db c ∧
      (∀ x ∈ filterItem db c, score x.toListing ≤ score b.toListing) ∧
      ∃ pre post, filterItem db c = pre ++ b :: post ∧
        ∀ x ∈ pre, score x.toListing < score b.toListing := by
  obtain ⟨b, hsel, hmem, hmax, pre, post, hdec, hpre⟩ :=
    selectBest_spec (fun l => score l.toListing) (filterItem db c) h
  refine ⟨b, hsel, ?_, hmem, hmax, pre, post, hdec, hpre⟩
  simp only [searchItemListings]
  rw [if_neg (by simp [List.isEmpty_iff, h]), hsel]

theorem searchItem_emptyCase (db : List Item) (c : ItemCriteria)
    (h : filterItem db c = []) :
    searchItemListings db c =
      SearchResult.err "No matching item listings found."
        (((db.mergeSort fun a b => suggLe a.toListing b.toListing).take 3).map fun s =>
          mkRec s.toListing (reasonTag (db.map Item.toListing) s.toListing
            "Related")) := by
  simp only [searchItemListings]
  rw [if_pos (by simp [List.isEmpty_iff, h]), ite_isEmpty_map]

/-! ## Claim theorems -/

/-- C1: for every call in which the candidate set after filtering is
non-empty, each of the three search functions returns (as its `ok`
record) a listing that is a member of the candidate set, whose score
`averageRating * 2.0 - basePrice / 100.0` is ≥ the score of every
candidate, and, when several candidates attain the maximum score, the
returned listing is the first such candidate in iteration order (strict
`>` comparison during a single pass, witnessed by the decomposition
`candidates = pre ++ best :: post` with every element of `pre` scoring
strictly below the best). -/
theorem claim_best_match_selection :
    (∀ (db : List Transport) (c : TransportCriteria), filterTransport db c ≠ [] →
      ∃ b, selectBest (fun l => score l.toListing) (filterTransport db c) = some b ∧
        searchTransportListings db c = SearchResult.ok (mkRec b.toListing
          (reasonTag ((filterTransport db c).map Transport.toListing) b.toListing
            "Best Match")) ∧
        b ∈ filterTransport db c ∧
        (∀ x ∈ filterTransport db c, score x.toListing ≤ score b.toListing) ∧
        ∃ pre post, filterTransport db c = pre ++ b :: post ∧
          ∀ x ∈ pre, score x.toListing < score b.toListing) ∧
    (∀ (db : List Accommodation) (c : AccommodationCriteria),
      filterAccommodation db c ≠ [] →
      ∃ b, selectBest (fun l => score l.toListing) (filterAccommodation db c) = some b ∧
        searchAccommodationListings db c = SearchResult.ok (mkRec b.toListing
          (reasonTag ((filterAccommodation db c).map Accommodation.toListing) b.toListing
            "Best Match")) ∧
        b ∈ filterAccommodation db c ∧
        (∀ x ∈ filterAccommodation db c, score x.toListing ≤ score b.toListing) ∧
        ∃ pre post, filterAccommodation db c = pre ++ b :: post ∧
          ∀ x ∈ pre, score x.toListing < score b.toListing) ∧
    (∀ (db : List Item) (c : ItemCriteria), filterItem db c ≠ [] →
      ∃ b, selectBest (fun l => score l.toListing) (filterItem db c) = some b ∧
        searchItemListings db c = SearchResult.ok (mkRec b.toListing
          (reasonTag ((filterItem db c).map Item.toListing) b.toListing "Best Match")) ∧
        b ∈ filterItem db c ∧
        (∀ x ∈ filterItem db c, score x.toListing ≤ score b.toListing) ∧
        ∃ pre post, filterItem db c = pre ++ b :: post ∧
          ∀ x ∈ pre, score x.toListing < score b.toListing) :=
  ⟨searchTransport_pos, searchAccommodation_pos, searchItem_pos⟩

/-- The all-`None` transport criteria. -/
def cAllNoneT : TransportCriteria := ⟨none, none, none, none, none, none⟩

/-- Witness for C1 at the mock transport collection with no criteria set. -/
theorem claim_best_match_selection_witness :
    ∃ b, selectBest (fun l => score l.toListing)
        (filterTransport get_transport_listings cAllNoneT) = some b ∧
      b ∈ filterTransport get_transport_listings cAllNoneT := by
  obtain ⟨b, hsel, _, hmem, _⟩ :=
    claim_best_match_selection.1 get_transport_listings cAllNoneT
      (List.cons_ne_nil _ _)
  exact ⟨b, hsel, hmem⟩

/-- The sort used for fallback suggestions produces a permutation of the
collection, ordered by descending score with ties broken by ascending
price. -/
theorem mergeSortSugg_spec (toL : α → Listing) (db : List α) :
    (db.mergeSort fun a b => suggLe (toL a) (toL b)).Perm db ∧
    (db.mergeSort fun a b => suggLe (toL a) (toL b)).Pairwise
      (fun a b => suggOrder (toL a) (toL b)) := by
  constructor
  · exact List.mergeSort_perm db _
  · have hs : (db.mergeSort fun a b => suggLe (toL a) (toL b)).Pairwise
        (fun a b => (suggLe (toL a) (toL b)) = true) := by
      apply List.sorted_mergeSort
      · exact fun a b c h1 h2 => keyLe_trans h1 h2
      · exact fun a b => keyLe_total _ _
    exact hs.imp fun h => suggLe_iff.mp h

/-- C2: when no listing survives filtering, each search function returns
the error indicator together with the records of the first `min(3, n)`
elements of the full unfiltered collection sorted descending by score
with ties broken by ascending `basePrice`; an empty collection yields an
empty suggestion list. -/
theorem claim_empty_fallback_suggestions :
    (∀ (db : List Transport) (c : TransportCriteria), filterTransport db c = [] →
      ∃ sorted : List Transport,
        sorted.Perm db ∧
        sorted.Pairwise (fun a b => suggOrder a.toListing b.toListing) ∧
        searchTransportListings db c =
          SearchResult.err "No matching transport listings found."
            ((sorted.take 3).map fun s =>
              mkRec s.toListing (reasonTag (db.map Transport.toListing) s.toListing
                "Related")) ∧
        ((sorted.take 3).map fun s =>
          mkRec s.toListing (reasonTag (db.map Transport.toListing) s.toListing
            "Related")).length = min 3 db.length ∧
        (db = [] → searchTransportListings db c =
          SearchResult.err "No matching transport listings found." [])) ∧
    (∀ (db : List Accommodation) (c : AccommodationCriteria),
      filterAccommodation db c = [] →
      ∃ sorted : List Accommodation,
        sorted.Perm db ∧
        sorted.Pairwise (fun a b => suggOrder a.toListing b.toListing) ∧
        searchAccommodationListings db c =
          SearchResult.err "No matching accommodation listings found."
            ((sorted.take 3).map fun s =>
              mkRec s.toListing (reasonTag (db.map Accommodation.toListing) s.toListing
                "Related")) ∧
        ((sorted.take 3).map fun s =>
          mkRec s.toListing (reasonTag (db.map Accommodation.toListing) s.toListing
            "Related")).length = min 3 db.length ∧
        (db = [] → searchAccommodationListings db c =
          SearchResult.err "No matching accommodation listings found." [])) ∧
    (∀ (db : List Item) (c : ItemCriteria), filterItem db c = [] →
      ∃ sorted : List Item,
        sorted.Perm db ∧
        sorted.Pairwise (fun a b => suggOrder a.toListing b.toListing) ∧
        searchItemListings db c =
          SearchResult.err "No matching item listings found."
            ((sorted.take 3).map fun s =>
              mkRec s.toListing (reasonTag (db.map Item.toListing) s.toListing
                "Related")) ∧
        ((sorted.take 3).map fun s =>
          mkRec s.toListing (reasonTag (db.map Item.toListing) s.toListing
            "Related")).length = min 3 db.length ∧
        (db = [] → searchItemListings db c =
          SearchResult.err "No matching item listings found." [])) := by
  refine ⟨fun db c h => ?_, fun db c h => ?_, fun db c h => ?_⟩
  · exact ⟨db.mergeSort fun a b => suggLe a.toListing b.toListing,
      (mergeSortSugg_spec Transport.toListing db).1,
      (mergeSortSugg_spec Transport.toListing db).2,
      searchTransport_emptyCase db c h, by simp,
      by rintro rfl; simpa using searchTransport_emptyCase [] c h⟩
  · exact ⟨db.mergeSort fun a b => suggLe a.toListing b.toListing,
      (mergeSortSugg_spec Accommodation.toListing db).1,
      (mergeSortSugg_spec Accommodation.toListing db).2,
      searchAccommodation_emptyCase db c h, by simp,
      by rintro rfl; simpa using searchAccommodation_emptyCase [] c h⟩
  · exact ⟨db.mergeSort fun a b => suggLe a.toListing b.toListing,
      (mergeSortSugg_spec Item.toListing db).1,
      (mergeSortSugg_spec Item.toListing db).2,
      searchItem_emptyCase db c h, by simp,
      by rintro rfl; simpa using searchItem_emptyCase [] c h⟩

/-- Transport criteria whose year matches no mock listing. -/
def cYear1T : TransportCriteria := ⟨none, none, none, none, none, some 1⟩

/-- Witness for C2 at the mock transport collection with an unmatched
year. -/
theorem claim_empty_fallback_suggestions_witness :
    ∃ sorted : List Transport,
      sorted.Perm get_transport_listings ∧
      sorted.Pairwise (fun a b => suggOrder a.toListing b.toListing) := by
  obtain ⟨sorted, hperm, hpair, _⟩ :=
    claim_empty_fallback_suggestions.1 get_transport_listings cYear1T rfl
  exact ⟨sorted, hperm, hpair⟩

/-- C3: reason tags are assigned by a fixed decision order over the
relevant scope — `"High Rating"` iff rating ≥ 4.5 and rating ≥ 0.99 ×
the scope's maximum rating; otherwise `"Cheap"` iff price ≤ 1.01 × the
scope's minimum price; otherwise the default (`"Best Match"` for a best
match, `"Related"` for a suggestion) — and the three outcomes are
mutually exclusive and exhaustive.  The second and third conjuncts tie
the tags of `search_transport_listings` to the candidate-set scope
(best match) and the whole-collection scope (suggestions). -/
theorem claim_reason_tags :
    (∀ (scope : List Listing) (l : Listing) (d : String),
      d ≠ "High Rating" → d ≠ "Cheap" →
      ((reasonTag scope l d = "High Rating" ↔
          (4.5 ≤ l.averageRating ∧ 0.99 * maxRating scope ≤ l.averageRating)) ∧
       (reasonTag scope l d = "Cheap" ↔
          (¬(4.5 ≤ l.averageRating ∧ 0.99 * maxRating scope ≤ l.averageRating) ∧
            l.basePrice ≤ minPrice scope * 1.01)) ∧
       (reasonTag scope l d = d ↔
          (¬(4.5 ≤ l.averageRating ∧ 0.99 * maxRating scope ≤ l.averageRating) ∧
            ¬(l.basePrice ≤ minPrice scope * 1.01))))) ∧
    (∀ (db : List Transport) (c : TransportCriteria), filterTransport db c ≠ [] →
      ∃ b : Transport, searchTransportListings db c = SearchResult.ok (mkRec b.toListing
        (reasonTag ((filterTransport db c).map Transport.toListing) b.toListing
          "Best Match"))) ∧
    (∀ (db : List Transport) (c : TransportCriteria), filterTransport db c = [] →
      searchTransportListings db c =
        SearchResult.err "No matching transport listings found."
          (((db.mergeSort fun a b => suggLe a.toListing b.toListing).take 3).map
            fun s => mkRec s.toListing
              (reasonTag (db.map Transport.toListing) s.toListing "Related"))) := by
  refine ⟨fun scope l d hd1 hd2 => ?_, fun db c h => ?_, searchTransport_emptyCase⟩
  · by_cases h1 : 4.5 ≤ l.averageRating ∧ 0.99 * maxRating scope ≤ l.averageRating
    · rw [reasonTag, if_pos h1]
      refine ⟨⟨fun _ => h1, fun _ => rfl⟩, ?_, ?_⟩
      · constructor
        · intro he
          exact absurd he (by decide)
        · rintro ⟨hn, _⟩
          exact absurd h1 hn
      · constructor
        · intro he
          exact absurd he.symm hd1
        · rintro ⟨hn, _⟩
          exact absurd h1 hn
    · by_cases h2 : l.basePrice ≤ minPrice scope * 1.01
      · rw [reasonTag, if_neg h1, if_pos h2]
        refine ⟨?_, ⟨fun _ => ⟨h1, h2⟩, fun _ => rfl⟩, ?_⟩
        · constructor
          · intro he
            exact absurd he (by decide)
          · intro hh
            exact absurd hh h1
        · constructor
          · intro he
            exact absurd he.symm hd2
          · rintro ⟨_, hn⟩
            exact absurd h2 hn
      · rw [reasonTag, if_neg h1, if_neg h2]
        refine ⟨?_, ?_, ⟨fun _ => ⟨h1, h2⟩, fun _ => rfl⟩⟩
        · constructor
          · intro he
            exact absurd he hd1
          · intro hh
            exact absurd hh h1
        · constructor
          · intro he
            exact absurd he hd2
          · rintro ⟨_, hc⟩
            exact absurd hc h2
  · obtain ⟨b, _, hok, _⟩ := searchTransport_pos db c h
    exact ⟨b, hok⟩

/-- Witness for C3 at the Camry listing with itself as scope. -/
theorem claim_reason_tags_witness :
    reasonTag [mockCamry.toListing] mockCamry.toListing "Best Match" = "High Rating" ↔
      (4.5 ≤ mockCamry.toListing.averageRating ∧
        0.99 * maxRating [mockCamry.toListing] ≤ mockCamry.toListing.averageRating) :=
  (claim_reason_tags.1 [mockCamry.toListing] mockCamry.toListing "Best Match"
    (by decide) (by decide)).1

/-- The criteria of the spec's transport example:
`{location: "Kuala Lumpur", max_price: 75}`. -/
def cKL75 : TransportCriteria := ⟨some "Kuala Lumpur", some 75, none, none, none, none⟩

/-- Filtering the mock transport listings with the example criteria
keeps exactly the Honda City (the Camry is excluded by price). -/
theorem filterKL75_eval : filterTransport get_transport_listings cKL75 = [mockCity] := by
  have ha : decide (mockCamry.basePrice ≤ (75:ℚ)) = false := by
    norm_num [mockCamry]
  have hb : decide (mockCity.basePrice ≤ (75:ℚ)) = true := by
    norm_num [mockCity]
  have hs1 : substrCI "Kuala Lumpur" mockCamry.location = true := by decide
  have hs2 : substrCI "Kuala Lumpur" mockCity.location = true := by decide
  simp only [filterTransport, cKL75, filterStr, filterLe, filterEqInt,
    get_transport_listings, mock_listings, List.filterMap_cons, List.filterMap_nil]
  simp [hs1, hs2, List.filter_cons, ha, hb]

/-- Full evaluation of the spec's transport example: the Honda City wins
and is tagged `"High Rating"` (its rating 4.5 meets the 4.5 threshold
and is within 1% of the candidate maximum 4.5, so the `"Cheap"` branch
is never reached). -/
theorem searchKL75_eval :
    searchTransportListings get_transport_listings cKL75 =
      SearchResult.ok ⟨"T002", "Honda City 2019", "Kuala Lumpur", 70, "High Rating"⟩ := by
  have hr : reasonTag ([mockCity].map Transport.toListing) mockCity.toListing
      "Best Match" = "High Rating" := by
    rw [reasonTag, if_pos]
    constructor <;> norm_num [mockCity, maxRating]
  simp only [searchTransportListings, filterKL75_eval]
  rw [if_neg (by simp)]
  simp only [selectBest, selectGo]
  rw [hr]
  simp [mkRec, mockCity]

/-- C4 counterexample: contrary to the claim, the example call does not
attach the reason tag `"Cheap"`. -/
theorem claim_transport_example_counterexample :
    searchTransportListings get_transport_listings cKL75 ≠
      SearchResult.ok ⟨"T002", "Honda City 2019", "Kuala Lumpur", 70, "Cheap"⟩ := by
  rw [searchKL75_eval]
  simp

/-- C4 amended: the example call over the two mock transport listings
yields candidate set = {Honda City} (the Camry is excluded by price),
returns the Honda City as best match, and attaches the reason tag
`"High Rating"` (not `"Cheap"`: the City's rating 4.5 satisfies both
high-rating thresholds in a singleton candidate set). -/
theorem claim_transport_example_amended :
    filterTransport get_transport_listings cKL75 = [mockCity] ∧
    searchTransportListings get_transport_listings cKL75 =
      SearchResult.ok ⟨"T002", "Honda City 2019", "Kuala Lumpur", 70, "High Rating"⟩ :=
  ⟨filterKL75_eval, searchKL75_eval⟩

/-- Transport criteria supplying `year = 0` (falsy in Python, so the
year filter is skipped). -/
def cYear0T : TransportCriteria := ⟨none, none, none, none, none, some 0⟩

/-- Transport criteria supplying `year = 2018`. -/
def cYear2018T : TransportCriteria := ⟨none, none, none, none, none, some 2018⟩

/-- C5 counterexample: supplying the year criterion `0` leaves the Camry
(year 2018) in the candidate set, because `if year:` is false for `0`
and the filter is skipped. -/
theorem claim_year_exact_filter_counterexample :
    cYear0T.year = some 0 ∧
    mockCamry ∈ filterTransport get_transport_listings cYear0T ∧
    mockCamry.year ≠ 0 :=
  ⟨rfl, List.mem_cons_self _ _, by decide⟩

/-- C5 amended: for every supplied non-zero year criterion, every
listing in the candidate set has exactly that year; a supplied year of
`0` is treated as unset (Python truthiness) and filters nothing. -/
theorem claim_year_exact_filter_amended :
    ∀ (db : List Transport) (c : TransportCriteria) (y : Int),
      c.year = some y → y ≠ 0 → ∀ l ∈ filterTransport db c, l.year = y := by
  intro db c y hc hy l hl
  have h := (mem_filterTransport.mp hl).2.2.2.2.2.2
  rw [hc] at h
  simpa [passEqInt, hy] using h

/-- Witness for C5 (amended) at the mock collection with year 2018. -/
theorem claim_year_exact_filter_witness : mockCamry.year = 2018 :=
  claim_year_exact_filter_amended get_transport_listings cYear2018T 2018 rfl
    (by decide) mockCamry (List.mem_cons_self _ _)

/-- `o` imposes at most the constraint of `o'`: it is unset or equal. -/
def optWeaker (o o' : Option β) : Prop := o = none ∨ o = o'

/-- `c` sets a subset of the constraints of `c'` (transport). -/
def TransportCriteria.Weaker (c c' : TransportCriteria) : Prop :=
  optWeaker c.location c'.location ∧ optWeaker c.max_price c'.max_price ∧
    optWeaker c.vehicleType c'.vehicleType ∧ optWeaker c.make c'.make ∧
    optWeaker c.model c'.model ∧ optWeaker c.year c'.year

/-- `c` sets a subset of the constraints of `c'` (accommodation). -/
def AccommodationCriteria.Weaker (c c' : AccommodationCriteria) : Prop :=
  optWeaker c.location c'.location ∧ optWeaker c.max_price c'.max_price ∧
    optWeaker c.propertyType c'.propertyType ∧ optWeaker c.numGuests c'.numGuests

/-- `c` sets a subset of the constraints of `c'` (item). -/
def ItemCriteria.Weaker (c c' : ItemCriteria) : Prop :=
  optWeaker c.location c'.location ∧ optWeaker c.max_price c'.max_price ∧
    optWeaker c.itemCategory c'.itemCategory

theorem pass_weaker {f : Option β → γ → Bool} (hnone : ∀ v, f none v = true)
    {o o' : Option β} {v : γ} (h : optWeaker o o') (hp : f o' v = true) :
    f o v = true := by
  rcases h with h | h <;> rw [h]
  · exact hnone v
  · exact hp

/-- C6: filtering returns a subset of the input collection, and is
monotone in the criteria — a criteria record that sets at most the
constraints of another admits every listing the other admits, so unset
fields eliminate nothing and extra criteria only shrink the candidate
set. -/
theorem claim_filter_subset_monotone :
    (∀ (db : List Transport) (c : TransportCriteria) (l : Transport),
      l ∈ filterTransport db c → l ∈ db) ∧
    (∀ (db : List Transport) (c c' : TransportCriteria) (l : Transport),
      TransportCriteria.Weaker c c' →
      l ∈ filterTransport db c' → l ∈ filterTransport db c) ∧
    (∀ (db : List Accommodation) (c : AccommodationCriteria) (l : Accommodation),
      l ∈ filterAccommodation db c → l ∈ db) ∧
    (∀ (db : List Accommodation) (c c' : AccommodationCriteria) (l : Accommodation),
      AccommodationCriteria.Weaker c c' →
      l ∈ filterAccommodation db c' → l ∈ filterAccommodation db c) ∧
    (∀ (db : List Item) (c : ItemCriteria) (l : Item),
      l ∈ filterItem db c → l ∈ db) ∧
    (∀ (db : List Item) (c c' : ItemCriteria) (l : Item),
      ItemCriteria.Weaker c c' →
      l ∈ filterItem db c' → l ∈ filterItem db c) := by
  refine ⟨fun db c l hl => (mem_filterTransport.mp hl).1,
    fun db c c' l hw hl => ?_,
    fun db c l hl => (mem_filterAccommodation.mp hl).1,
    fun db c c' l hw hl => ?_,
    fun db c l hl => (mem_filterItem.mp hl).1,
    fun db c c' l hw hl => ?_⟩
  · obtain ⟨h1, h2, h3, h4, h5, h6⟩ := hw
    obtain ⟨hdb, p1, p2, p3, p4, p5, p6⟩ := mem_filterTransport.mp hl
    exact mem_filterTransport.mpr ⟨hdb,
      pass_weaker (fun _ => rfl) h1 p1, pass_weaker (fun _ => rfl) h2 p2,
      pass_weaker (fun _ => rfl) h3 p3, pass_weaker (fun _ => rfl) h4 p4,
      pass_weaker (fun _ => rfl) h5 p5, pass_weaker (fun _ => rfl) h6 p6⟩
  · obtain ⟨h1, h2, h3, h4⟩ := hw
    obtain ⟨hdb, p1, p2, p3, p4⟩ := mem_filterAccommodation.mp hl
    exact mem_filterAccommodation.mpr ⟨hdb,
      pass_weaker (fun _ => rfl) h1 p1, pass_weaker (fun _ => rfl) h2 p2,
      pass_weaker (fun _ => rfl) h3 p3, pass_weaker (fun _ => rfl) h4 p4⟩
  · obtain ⟨h1, h2, h3⟩ := hw
    obtain ⟨hdb, p1, p2, p3⟩ := mem_filterItem.mp hl
    exact mem_filterItem.mpr ⟨hdb,
      pass_weaker (fun _ => rfl) h1 p1, pass_weaker (fun _ => rfl) h2 p2,
      pass_weaker (fun _ => rfl) h3 p3⟩

/-- Witness for C6: the all-`None` criteria are weaker than the
year-2018 criteria, so the Camry matched by the latter is kept by the
former. -/
theorem claim_filter_subset_monotone_witness :
    mockCamry ∈ filterTransport get_transport_listings cAllNoneT :=
  claim_filter_subset_monotone.2.1 get_transport_listings cAllNoneT cYear2018T
    mockCamry (by simp [TransportCriteria.Weaker, optWeaker, cAllNoneT, cYear2018T])
    (List.mem_cons_self _ _)

/-- C7: assuming all base prices are non-negative, a negative
`max_price` empties the candidate set, and the search returns the normal
error-plus-suggestions response (the computation is total — every input
produces a `SearchResult`). -/
theorem claim_negative_max_price :
    (∀ (db : List Transport) (c : TransportCriteria) (p : ℚ),
      (∀ l ∈ db, 0 ≤ l.basePrice) → c.max_price = some p → p < 0 →
      filterTransport db c = [] ∧
      ∃ suggs, searchTransportListings db c =
        SearchResult.err "No matching transport listings found." suggs) ∧
    (∀ (db : List Accommodation) (c : AccommodationCriteria) (p : ℚ),
      (∀ l ∈ db, 0 ≤ l.basePrice) → c.max_price = some p → p < 0 →
      filterAccommodation db c = [] ∧
      ∃ suggs, searchAccommodationListings db c =
        SearchResult.err "No matching accommodation listings found." suggs) ∧
    (∀ (db : List Item) (c : ItemCriteria) (p : ℚ),
      (∀ l ∈ db, 0 ≤ l.basePrice) → c.max_price = some p → p < 0 →
      filterItem db c = [] ∧
      ∃ suggs, searchItemListings db c =
        SearchResult.err "No matching item listings found." suggs) := by
  refine ⟨fun db c p h0 hc hp => ?_, fun db c p h0 hc hp => ?_,
    fun db c p h0 hc hp => ?_⟩
  · have hfil : filterTransport db c = [] := by
      rw [List.eq_nil_iff_forall_not_mem]
      intro l hl
      obtain ⟨hdb, _, hple, _⟩ := mem_filterTransport.mp hl
      rw [hc] at hple
      simp only [passLe, decide_eq_true_eq] at hple
      exact absurd (le_trans (h0 l hdb) hple) (not_le.mpr hp)
    exact ⟨hfil, _, searchTransport_emptyCase db c hfil⟩
  · have hfil : filterAccommodation db c = [] := by
      rw [List.eq_nil_iff_forall_not_mem]
      intro l hl
      obtain ⟨hdb, _, hple, _⟩ := mem_filterAccommodation.mp hl
      rw [hc] at hple
      simp only [passLe, decide_eq_true_eq] at hple
      exact absurd (le_trans (h0 l hdb) hple) (not_le.mpr hp)
    exact ⟨hfil, _, searchAccommodation_emptyCase db c hfil⟩
  · have hfil : filterItem db c = [] := by
      rw [List.eq_nil_iff_forall_not_mem]
      intro l hl
      obtain ⟨hdb, _, hple, _⟩ := mem_filterItem.mp hl
      rw [hc] at hple
      simp only [passLe, decide_eq_true_eq] at hple
      exact absurd (le_trans (h0 l hdb) hple) (not_le.mpr hp)
    exact ⟨hfil, _, searchItem_emptyCase db c hfil⟩

/-- Transport criteria with a negative price ceiling. -/
def cNegT : TransportCriteria := ⟨none, some (-1), none, none, none, none⟩

/-- Witness for C7 on the empty collection with `max_price = -1`. -/
theorem claim_negative_max_price_witness :
    filterTransport [] cNegT = [] ∧
    ∃ suggs, searchTransportListings [] cNegT =
      SearchResult.err "No matching transport listings found." suggs :=
  claim_negative_max_price.1 [] cNegT (-1) (by simp) rfl (by norm_num)

/-- C9: the search functions are deterministic, pure functions of the
collection and criteria — identical arguments yield identical results. -/
theorem claim_deterministic :
    (∀ (db db' : List Transport) (c c' : TransportCriteria), db = db' → c = c' →
      searchTransportListings db c = searchTransportListings db' c') ∧
    (∀ (db db' : List Accommodation) (c c' : AccommodationCriteria),
      db = db' → c = c' →
      searchAccommodationListings db c = searchAccommodationListings db' c') ∧
    (∀ (db db' : List Item) (c c' : ItemCriteria), db = db' → c = c' →
      searchItemListings db c = searchItemListings db' c') := by
  refine ⟨?_, ?_, ?_⟩ <;>
  · rintro _ _ _ _ rfl rfl
    rfl

/-- Witness for C9: two invocations on the mock transport collection
with the same criteria agree. -/
theorem claim_deterministic_witness :
    searchTransportListings get_transport_listings cAllNoneT =
      searchTransportListings get_transport_listings cAllNoneT :=
  claim_deterministic.1 get_transport_listings get_transport_listings
    cAllNoneT cAllNoneT rfl rfl

/-- C10: no search call can fail at runtime — with a non-empty candidate
set the selection loop always yields a listing (`selectBest` is `some`)
and the function returns an `ok` record, never reaching the `None`
dereference; and in the empty-candidate branch a non-empty suggestion
list forces the full collection to be non-empty, so the `max`/`min`
aggregates are never taken over an empty sequence. -/
theorem claim_no_runtime_error :
    (∀ (db : List Transport) (c : TransportCriteria),
      (filterTransport db c ≠ [] →
        (selectBest (fun l => score l.toListing) (filterTransport db c)).isSome = true ∧
        ∃ r, searchTransportListings db c = SearchResult.ok r) ∧
      ((db.mergeSort fun a b => suggLe a.toListing b.toListing).take 3 ≠ [] →
        db ≠ [])) ∧
    (∀ (db : List Accommodation) (c : AccommodationCriteria),
      (filterAccommodation db c ≠ [] →
        (selectBest (fun l => score l.toListing) (filterAccommodation db c)).isSome = true ∧
        ∃ r, searchAccommodationListings db c = SearchResult.ok r) ∧
      ((db.mergeSort fun a b => suggLe a.toListing b.toListing).take 3 ≠ [] →
        db ≠ [])) ∧
    (∀ (db : List Item) (c : ItemCriteria),
      (filterItem db c ≠ [] →
        (selectBest (fun l => score l.toListing) (filterItem db c)).isSome = true ∧
        ∃ r, searchItemListings db c = SearchResult.ok r) ∧
      ((db.mergeSort fun a b => suggLe a.toListing b.toListing).take 3 ≠ [] →
        db ≠ [])) := by
  refine ⟨fun db c => ⟨fun h => ?_, fun h => ?_⟩,
    fun db c => ⟨fun h => ?_, fun h => ?_⟩,
    fun db c => ⟨fun h => ?_, fun h => ?_⟩⟩
  · obtain ⟨b, hsel, hok, _⟩ := searchTransport_pos db c h
    exact ⟨by rw [hsel]; rfl, _, hok⟩
  · rintro rfl
    simp at h
  · obtain ⟨b, hsel, hok, _⟩ := searchAccommodation_pos db c h
    exact ⟨by rw [hsel]; rfl, _, hok⟩
  · rintro rfl
    simp at h
  · obtain ⟨b, hsel, hok, _⟩ := searchItem_pos db c h
    exact ⟨by rw [hsel]; rfl, _, hok⟩
  · rintro rfl
    simp at h

/-- Witness for C10 at the mock transport collection. -/
theorem claim_no_runtime_error_witness :
    ∃ r, searchTransportListings get_transport_listings cAllNoneT =
      SearchResult.ok r :=
  ((claim_no_runtime_error.1 get_transport_listings cAllNoneT).1
    (List.cons_ne_nil _ _)).2

/-! ## The three searches are instances of the generic ranker -/

@[simp] theorem asTransport_toListing (b : Listing) :
    (Listing.asTransport b).toListing = b := rfl

@[simp] theorem asAccommodation_toListing (b : Listing) :
    (Listing.asAccommodation b).toListing = b := rfl

@[simp] theorem asItem_toListing (b : Listing) :
    (Listing.asItem b).toListing = b := rfl

theorem isEmpty_map (f : α → β) (l : List α) : (l.map f).isEmpty = l.isEmpty := by
  cases l <;> rfl

theorem filterStr_map {o : Option String} {f : α → β} {g : β → String} (ls : List α) :
    filterStr o g (ls.map f) = (filterStr o (fun a => g (f a)) ls).map f := by
  cases o with
  | none => rfl
  | some s =>
    by_cases hs : s = ""
    · simp [filterStr, hs]
    · simp only [filterStr, if_neg hs]
      exact List.filter_map f ls

theorem filterLe_map {o : Option ℚ} {f : α → β} {g : β → ℚ} (ls : List α) :
    filterLe o g (ls.map f) = (filterLe o (fun a => g (f a)) ls).map f := by
  cases o with
  | none => rfl
  | some p =>
    simp only [filterLe]
    exact List.filter_map f ls

theorem selectGo_map (f : α → β) (sc : β → ℚ) (t : List α) (b : α) :
    selectGo sc (f b) (t.map f) = f (selectGo (fun x => sc (f x)) b t) := by
  induction t generalizing b with
  | nil => rfl
  | cons l t ih =>
    by_cases h : sc (f b) < sc (f l)
    · show selectGo sc (if sc (f b) < sc (f l) then f l else f b) (t.map f) = _
      rw [if_pos h]
      show _ = f (selectGo _ (if sc (f b) < sc (f l) then l else b) t)
      rw [if_pos h]
      exact ih l
    · show selectGo sc (if sc (f b) < sc (f l) then f l else f b) (t.map f) = _
      rw [if_neg h]
      show _ = f (selectGo _ (if sc (f b) < sc (f l) then l else b) t)
      rw [if_neg h]
      exact ih b

theorem selectBest_map (f : α → β) (sc : β → ℚ) (ls : List α) :
    selectBest sc (ls.map f) = (selectBest (fun x => sc (f x)) ls).map f := by
  cases ls with
  | nil => rfl
  | cons h t =>
    show some (selectGo sc (f h) (t.map f)) = some (f (selectGo _ h t))
    rw [selectGo_map]

theorem searchTransport_asBase (bs : List Listing) (loc : Option String)
    (mp : Option ℚ) :
    searchTransportListings (bs.map Listing.asTransport) ⟨loc, mp, none, none, none, none⟩ =
      rankListings bs loc mp "No matching transport listings found." := by
  have hfil : filterTransport (bs.map Listing.asTransport)
      ⟨loc, mp, none, none, none, none⟩
      = (filterLe mp (fun l => l.basePrice)
          (filterStr loc (fun l => l.location) bs)).map Listing.asTransport := by
    show filterLe mp _ (filterStr loc _ (bs.map Listing.asTransport)) = _
    rw [filterStr_map, filterLe_map]
    rfl
  have hscope : (((filterLe mp (fun l => l.basePrice)
      (filterStr loc (fun l => l.location) bs)).map Listing.asTransport).map
        Transport.toListing)
      = filterLe mp (fun l => l.basePrice) (filterStr loc (fun l => l.location) bs) := by
    rw [List.map_map]
    exact List.map_id' _
  have hall : ((bs.map Listing.asTransport).map Transport.toListing) = bs := by
    rw [List.map_map]
    exact List.map_id' _
  simp only [searchTransportListings, rankListings]
  rw [hfil, isEmpty_map]
  by_cases hE : (filterLe mp (fun l => l.basePrice)
      (filterStr loc (fun l => l.location) bs)).isEmpty = true
  · rw [if_pos hE, if_pos hE]
    rw [ite_isEmpty_map, ite_isEmpty_map, hall]
    have hms : ((bs.mergeSort suggLe).map Listing.asTransport)
        = ((bs.map Listing.asTransport).mergeSort
            fun a b => suggLe a.toListing b.toListing) :=
      List.map_mergeSort (fun a _ b _ => rfl)
    rw [← hms, ← List.map_take, List.map_map]
    rfl
  · rw [if_neg hE, if_neg hE]
    rw [selectBest_map, hscope]
    have hsc : (fun x : Listing => score ((Listing.asTransport x).toListing)) = score :=
      rfl
    rw [hsc]
    cases selectBest score (filterLe mp (fun l => l.basePrice)
        (filterStr loc (fun l => l.location) bs)) with
    | none => rfl
    | some b => rfl

theorem searchAccommodation_asBase (bs : List Listing) (loc : Option String)
    (mp : Option ℚ) :
    searchAccommodationListings (bs.map Listing.asAccommodation) ⟨loc, mp, none, none⟩ =
      rankListings bs loc mp "No matching accommodation listings found." := by
  have hfil : filterAccommodation (bs.map Listing.asAccommodation) ⟨loc, mp, none, none⟩
      = (filterLe mp (fun l => l.basePrice)
          (filterStr loc (fun l => l.location) bs)).map Listing.asAccommodation := by
    show filterLe mp _ (filterStr loc _ (bs.map Listing.asAccommodation)) = _
    rw [filterStr_map, filterLe_map]
    rfl
  have hscope : (((filterLe mp (fun l => l.basePrice)
      (filterStr loc (fun l => l.location) bs)).map Listing.asAccommodation).map
        Accommodation.toListing)
      = filterLe mp (fun l => l.basePrice) (filterStr loc (fun l => l.location) bs) := by
    rw [List.map_map]
    exact List.map_id' _
  have hall : ((bs.map Listing.asAccommodation).map Accommodation.toListing) = bs := by
    rw [List.map_map]
    exact List.map_id' _
  simp only [searchAccommodationListings, rankListings]
  rw [hfil, isEmpty_map]
  by_cases hE : (filterLe mp (fun l => l.basePrice)
      (filterStr loc (fun l => l.location) bs)).isEmpty = true
  · rw [if_pos hE, if_pos hE]
    rw [ite_isEmpty_map, ite_isEmpty_map, hall]
    have hms : ((bs.mergeSort suggLe).map Listing.asAccommodation)
        = ((bs.map Listing.asAccommodation).mergeSort
            fun a b => suggLe a.toListing b.toListing) :=
      List.map_mergeSort (fun a _ b _ => rfl)
    rw [← hms, ← List.map_take, List.map_map]
    rfl
  · rw [if_neg hE, if_neg hE]
    rw [selectBest_map, hscope]
    have hsc : (fun x : Listing => score ((Listing.asAccommodation x).toListing)) =
        score := rfl
    rw [hsc]
    cases selectBest score (filterLe mp (fun l => l.basePrice)
        (filterStr loc (fun l => l.location) bs)) with
    | none => rfl
    | some b => rfl

theorem searchItem_asBase (bs : List Listing) (loc : Option String) (mp : Option ℚ) :
    searchItemListings (bs.map Listing.asItem) ⟨loc, mp, none⟩ =
      rankListings bs loc mp "No matching item listings found." := by
  have hfil : filterItem (bs.map Listing.asItem) ⟨loc, mp, none⟩
      = (filterLe mp (fun l => l.basePrice)
          (filterStr loc (fun l => l.location) bs)).map Listing.asItem := by
    show filterLe mp _ (filterStr loc _ (bs.map Listing.asItem)) = _
    rw [filterStr_map, filterLe_map]
    rfl
  have hscope : (((filterLe mp (fun l => l.basePrice)
      (filterStr loc (fun l => l.location) bs)).map Listing.asItem).map
        Item.toListing)
      = filterLe mp (fun l => l.basePrice) (filterStr loc (fun l => l.location) bs) := by
    rw [List.map_map]
    exact List.map_id' _
  have hall : ((bs.map Listing.asItem).map Item.toListing) = bs := by
    rw [List.map_map]
    exact List.map_id' _
  simp only [searchItemListings, rankListings]
  rw [hfil, isEmpty_map]
  by_cases hE : (filterLe mp (fun l => l.basePrice)
      (filterStr loc (fun l => l.location) bs)).isEmpty = true
  · rw [if_pos hE, if_pos hE]
    rw [ite_isEmpty_map, ite_isEmpty_map, hall]
    have hms : ((bs.mergeSort suggLe).map Listing.asItem)
        = ((bs.map Listing.asItem).mergeSort
            fun a b => suggLe a.toListing b.toListing) :=
      List.map_mergeSort (fun a _ b _ => rfl)
    rw [← hms, ← List.map_take, List.map_map]
    rfl
  · rw [if_neg hE, if_neg hE]
    rw [selectBest_map, hscope]
    have hsc : (fun x : Listing => score ((Listing.asItem x).toListing)) = score := rfl
    rw [hsc]
    cases selectBest score (filterLe mp (fun l => l.basePrice)
        (filterStr loc (fun l => l.location) bs)) with
    | none => rfl
    | some b => rfl

/-- The scrubbed generic ranker does not depend on the error message. -/
theorem rank_scrub_msg (bs : List Listing) (loc : Option String) (mp : Option ℚ)
    (m m' : String) :
    (rankListings bs loc mp m).scrub = (rankListings bs loc mp m').scrub := by
  simp only [rankListings]
  by_cases hE : (filterLe mp (fun l => l.basePrice)
      (filterStr loc (fun l => l.location) bs)).isEmpty = true
  · rw [if_pos hE, if_pos hE]
    rfl
  · rw [if_neg hE, if_neg hE]

/-- C8: the three search functions implement the same category-agnostic
algorithm.  Over any base-listing collection, with criteria restricted
to the shared fields (`location`, `max_price`) and the category-specific
fields unset, each search equals the generic spec-level ranker
`rankListings` up to its error-message text, and hence any two searches
agree exactly once the message text is scrubbed. -/
theorem claim_category_agnostic :
    ∀ (bs : List Listing) (loc : Option String) (mp : Option ℚ),
      searchTransportListings (bs.map Listing.asTransport)
          ⟨loc, mp, none, none, none, none⟩ =
        rankListings bs loc mp "No matching transport listings found." ∧
      searchAccommodationListings (bs.map Listing.asAccommodation)
          ⟨loc, mp, none, none⟩ =
        rankListings bs loc mp "No matching accommodation listings found." ∧
      searchItemListings (bs.map Listing.asItem) ⟨loc, mp, none⟩ =
        rankListings bs loc mp "No matching item listings found." ∧
      (searchTransportListings (bs.map Listing.asTransport)
          ⟨loc, mp, none, none, none, none⟩).scrub =
        (searchAccommodationListings (bs.map Listing.asAccommodation)
          ⟨loc, mp, none, none⟩).scrub ∧
      (searchAccommodationListings (bs.map Listing.asAccommodation)
          ⟨loc, mp, none, none⟩).scrub =
        (searchItemListings (bs.map Listing.asItem) ⟨loc, mp, none⟩).scrub := by
  intro bs loc mp
  refine ⟨searchTransport_asBase bs loc mp, searchAccommodation_asBase bs loc mp,
    searchItem_asBase bs loc mp, ?_, ?_⟩
  · rw [searchTransport_asBase bs loc mp, searchAccommodation_asBase bs loc mp]
    exact rank_scrub_msg bs loc mp _ _
  · rw [searchAccommodation_asBase bs loc mp, searchItem_asBase bs loc mp]
    exact rank_scrub_msg bs loc mp _ _

end SmartFiltering
